import Mathlib

/-!
Verification of the TensorService subscription/session manager
(file src/services/TensorService.ts of the tensorians-sales repository).

The TypeScript class is shallowly embedded: the mutable fields of the
class become a Lean structure, each method becomes a state-passing
function, and the asynchronous transport callbacks (open, close,
message) become explicit step functions.  The randomUUID call is
modelled by a fresh-identifier counter (all that the program relies on
is that each generated identifier is new), JavaScript Map insertion
semantics by an association list whose set operation overwrites in
place, and Date.now by an explicit time parameter.  Outbound frames
and the receipt of the connection_ack handshake message are recorded
in an ordered log so temporal claims can be stated.
-/

namespace TensorSales

/-- JS-Map semantics on an association list: overwrite the value in
place when the key is present, append otherwise. -/
def mapSet {β : Type} (m : List (String × β)) (k : String) (v : β) :
    List (String × β) :=
  match m with
  | [] => [(k, v)]
  | (k', v') :: rest =>
      if k' = k then (k, v) :: rest else (k', v') :: mapSet rest k v

/-- JS Map.has. -/
def mapHas {β : Type} (m : List (String × β)) (k : String) : Bool :=
  match m with
  | [] => false
  | (k', _) :: rest => if k' = k then true else mapHas rest k

/-- JS Map.get. -/
def mapGet {β : Type} (m : List (String × β)) (k : String) : Option β :=
  match m with
  | [] => none
  | (k', v') :: rest => if k' = k then some v' else mapGet rest k

/-- The reverse lookup performed by the message handler of connect
(part_001 lines 124-127): scan the entries of subscribedSlugs in
order for the first one whose value is the identifier of the inbound
frame and return its key. -/
def findSlugById (m : List (String × Nat)) (id : Nat) : Option String :=
  match m with
  | [] => none
  | (k', v') :: rest => if v' = id then some k' else findSlugById rest id

/-- The identifiers the registry holds for a topic, in entry order. -/
def idsFor (m : List (String × Nat)) (k : String) : List Nat :=
  (m.filter (fun p => p.1 = k)).map Prod.snd

/-- tx.txMetadata of a TensorTransaction. -/
structure TxMetadata where
  auctionHouse : String
  urlId : String
  sellerRef : String
  tokenAcc : String
deriving Repr, DecidableEq

/-- The tx part of a TensorTransaction.  Numeric JS fields are
modelled as Int; no operation of the service reads them. -/
structure Tx where
  source : String
  txKey : String
  txId : String
  txType : String
  grossAmount : Int
  grossAmountUnit : String
  sellerId : String
  buyerId : String
  txAt : String
  txMetadata : TxMetadata
  poolOnchainId : String
deriving Repr, DecidableEq

/-- One entry of mint.attributes. -/
structure TraitAttribute where
  trait_type : String
  value : String
deriving Repr, DecidableEq

/-- mint.lastSale of a TensorTransaction. -/
structure LastSale where
  price : Int
  priceUnit : String
  txAt : String
deriving Repr, DecidableEq

/-- The mint part of a TensorTransaction. -/
structure Mint where
  onchainId : String
  name : String
  imageUri : String
  metadataUri : String
  metadataFetchedAt : String
  sellRoyaltyFeeBPS : Int
  tokenStandard : String
  tokenEdition : Int
  attributes : List TraitAttribute
  lastSale : LastSale
  accState : String
  rarityRankTT : Int
  rarityRankTTStat : Int
  rarityRankHR : Int
  rarityRankTeam : Int
  rarityRankStat : Int
  rarityRankTN : Int
deriving Repr, DecidableEq

/-- The decoded inbound event (interface TensorTransaction). -/
structure TensorTransaction where
  tx : Tx
  mint : Mint
deriving Repr, DecidableEq

/-- Outbound frames the service sends.  Subscription identifiers
(randomUUID in the source) are modelled as naturals issued by a fresh
counter.  The subscribe frame also carries the fixed GraphQL query
text, identical in every subscribe frame, which is omitted here. -/
inductive Frame where
  | ping : Frame
  | connection_init : Frame
  | subscribe (id : Nat) (slug : String) : Frame
deriving Repr, DecidableEq

/-- Entries of the observable session log: outbound frames handed to
the transport, and the receipt of the connection_ack handshake
message (which fulfils the pending connect suspension). -/
inductive LogEntry where
  | sent (f : Frame) : LogEntry
  | ackReceived : LogEntry
deriving Repr, DecidableEq

/-- The statistics payload returned by getCollectionStats (the two
fields named by its TypeScript return type). -/
structure Stats where
  buyNowPriceNetFees : Int
  numMints : Int
deriving Repr, DecidableEq

/-- One entry of the private cache map. -/
structure CacheEntry where
  expires : Nat
  data : Stats
deriving Repr, DecidableEq

/-- The mutable state of a TensorService instance.  ws and timer hold
the current handles; wsLive, timersLive and wsOpened additionally
track which transport handles are still live (constructed and not yet
closed), which interval timers are active (started and not cleared),
and which transport handles have already fired their open event,
so resource-leak claims can be stated.  nextId numbers subscription
identifiers (randomUUID), nextHandle numbers transport and timer
handles. -/
structure Service where
  url : String
  apiKey : String
  ws : Option Nat
  is_connected : Bool
  subscribedSlugs : List (String × Nat)
  timer : Option Nat
  cache : List (String × CacheEntry)
  nextId : Nat
  nextHandle : Nat
  wsLive : List Nat
  timersLive : List Nat
  wsOpened : List Nat
  log : List LogEntry
deriving Repr, DecidableEq

/-- The constructor (part_001 lines 77-83). -/
def initService (url apiKey : String) : Service :=
  { url := url, apiKey := apiKey, ws := none, is_connected := false,
    subscribedSlugs := [], timer := none, cache := [],
    nextId := 0, nextHandle := 0,
    wsLive := [], timersLive := [], wsOpened := [], log := [] }

/-- send (part_001 lines 152-158): hand the frame to the transport
when connected, otherwise only log a diagnostic and drop it. -/
def send (s : Service) (f : Frame) : Service :=
  if s.is_connected then { s with log := s.log ++ [LogEntry.sent f] } else s

/-- subscribeToSlug (part_001 lines 160-254): a no-op when the slug
is already registered and force is false; otherwise generate a fresh
identifier, record slug to identifier in the registry, and send the
subscribe frame. -/
def subscribeToSlug (s : Service) (slug : String) (force : Bool) : Service :=
  if mapHas s.subscribedSlugs slug && !force then s
  else
    let id := s.nextId
    let s' := { s with
      subscribedSlugs := mapSet s.subscribedSlugs slug id,
      nextId := s.nextId + 1 }
    send s' (Frame.subscribe id slug)

/-- The frames the service sends, in order, extracted from the log. -/
def sentFrames (l : List LogEntry) : List Frame :=
  l.filterMap (fun e => match e with
    | LogEntry.sent f => some f
    | LogEntry.ackReceived => none)

/-- Well-formedness of the registry state, maintained by the service:
slugs are registered at most once, identifiers are globally unique,
and every issued identifier is below the fresh counter. -/
def WF (s : Service) : Prop :=
  (s.subscribedSlugs.map Prod.fst).Nodup ∧
  (s.subscribedSlugs.map Prod.snd).Nodup ∧
  ∀ p ∈ s.subscribedSlugs, p.2 < s.nextId

instance (s : Service) : Decidable (WF s) := by
  unfold WF; infer_instance

/-! ## Event dispatcher -/

/-- The listener registrations of the EventEmitter the service
extends: for each event pattern string, the handles of the listeners
registered on it, in registration order. -/
structure Emitter where
  listeners : String → List Nat

/-- One observable listener invocation: the pattern it was registered
on, the listener handle, and the slug argument passed (the emit call
passes the transaction and the resolved slug; the transaction is the
same for every invocation of one dispatch and is omitted). -/
structure Invocation where
  pattern : String
  listener : Nat
  slug : Option String
deriving Repr, DecidableEq

/-- listenerCount of the EventEmitter. -/
def listenerCount (em : Emitter) (event : String) : Nat :=
  (em.listeners event).length

/-- checkForListener (part_001 lines 314-316). -/
def checkForListener (em : Emitter) (event : String) : Bool :=
  listenerCount em event > 0

/-- EventEmitter.emit: invoke every listener registered on the event,
in registration order. -/
def emit (em : Emitter) (event : String) (slug : Option String) :
    List Invocation :=
  (em.listeners event).map (fun l => ⟨event, l, slug⟩)

/-- handleTransaction (part_001 lines 318-339): the five guarded
emits, in program order, on the global pattern, the exact
source:type pattern, the source wildcard, the type wildcard and the
bare type pattern.  The result is the ordered list of listener
invocations the dispatch performs. -/
def handleTransaction (em : Emitter) (t : TensorTransaction)
    (slug : Option String) : List Invocation :=
  let source := t.tx.source
  let txType := t.tx.txType
  (if checkForListener em "transaction" then
      emit em "transaction" slug else []) ++
  (if checkForListener em (source ++ ":" ++ txType) then
      emit em (source ++ ":" ++ txType) slug else []) ++
  (if checkForListener em (source ++ ":*") then
      emit em (source ++ ":*") slug else []) ++
  (if checkForListener em ("*:" ++ txType) then
      emit em ("*:" ++ txType) slug else []) ++
  (if checkForListener em txType then
      emit em txType slug else [])

/-- The five candidate patterns of one dispatch, in the order the
code checks them. -/
def firePatterns (source txType : String) : List String :=
  ["transaction", source ++ ":" ++ txType, source ++ ":*",
   "*:" ++ txType, txType]

/-! ## Inbound message handling -/

/-- Decoded inbound frames as the message handler distinguishes them
(part_001 lines 111-131): a pong, the connection_ack handshake, a
frame whose payload carries a newTransactionTV2 event together with
the frame identifier, or anything else. -/
inductive InboundMsg where
  | pong : InboundMsg
  | connection_ack : InboundMsg
  | eventFrame (id : Nat) (t : TensorTransaction) : InboundMsg
  | other : InboundMsg
deriving Repr, DecidableEq

/-- The message handler registered in connect (part_001 lines
111-131).  A pong is ignored; connection_ack fulfils the pending
connect suspension (recorded in the log); an event frame has its
originating slug resolved by scanning the registry for its identifier
and is then handed to handleTransaction unconditionally, whether or
not the resolution succeeded.  Returns the new state and the listener
invocations performed. -/
def messageEv (s : Service) (em : Emitter) (m : InboundMsg) :
    Service × List Invocation :=
  match m with
  | InboundMsg.pong => (s, [])
  | InboundMsg.connection_ack =>
      ({ s with log := s.log ++ [LogEntry.ackReceived] }, [])
  | InboundMsg.eventFrame id t =>
      let slug := findSlugById s.subscribedSlugs id
      (s, handleTransaction em t slug)
  | InboundMsg.other => (s, [])

/-! ## Connection lifecycle -/

/-- The synchronous body of connect (part_001 lines 85-93): construct
a new WebSocket for the endpoint and store it in the ws field.  The
old handle, if any, is neither closed nor cleared, and the old timer
is untouched. -/
def connectStep (s : Service) : Service :=
  { s with ws := some s.nextHandle,
           wsLive := s.wsLive ++ [s.nextHandle],
           nextHandle := s.nextHandle + 1 }

/-- setInterval of the open handler (part_001 lines 100-102): start
a fresh keep-alive timer and store its handle.  The previous timer
handle is overwritten without being cleared. -/
def startTimer (s : Service) : Service :=
  { s with timer := some s.nextHandle,
           timersLive := s.timersLive ++ [s.nextHandle],
           nextHandle := s.nextHandle + 1 }

/-- Forced resubscription of each slug of a list in turn; the replay
loop of the open handler is this applied to the registered slugs. -/
def replayFold (s : Service) (L : List String) : Service :=
  L.foldl (fun st slug => subscribeToSlug st slug true) s

/-- The replay loop at the end of the open handler (part_001 lines
133-135): for every registered slug, resubscribe with force. -/
def replayAll (s : Service) : Service :=
  replayFold s (s.subscribedSlugs.map Prod.fst)

/-- The open handler (part_001 lines 95-136): mark connected, start
the keep-alive timer, send connection_init, install the message
handler, and replay every registered subscription with force.  The
transport fires open at most once per socket, and only for a socket
that is still live; the wsOpened set encodes that. -/
def openEv (s : Service) : Service :=
  match s.ws with
  | none => s
  | some h =>
      if s.wsLive.contains h && !(s.wsOpened.contains h) then
        let s1 := { s with wsOpened := s.wsOpened ++ [h],
                           is_connected := true }
        let s2 := startTimer s1
        let s3 := send s2 Frame.connection_init
        replayAll s3
      else s

/-- The clearInterval guard of the close handler: deactivate the
stored keep-alive interval if one was ever started; the timer field
itself is left as it is (the source does not null it). -/
def clearTimer (s : Service) : Service :=
  match s.timer with
  | some t => { s with timersLive := s.timersLive.erase t }
  | none => s

/-- The close handler (part_001 lines 138-144): the current socket
has closed (it fires once, for a live current socket): mark
disconnected, clear the keep-alive interval if one was ever started,
and immediately call connect again. -/
def closeEv (s : Service) : Service :=
  match s.ws with
  | none => s
  | some h =>
      if s.wsLive.contains h then
        connectStep (clearTimer { s with is_connected := false,
                                         wsLive := s.wsLive.erase h })
      else s

/-! ## Stats fetch path -/

/-- The outcome of the one-shot HTTP request getCollectionStats makes
on a cache miss: the ok flag of the response and, when ok, the
statsV2 payload extracted from the response body. -/
structure FetchResponse where
  ok : Bool
  stats : Stats
deriving Repr, DecidableEq

/-- The observable outcome of one getCollectionStats call: the state
afterwards, the value returned or the error thrown, and whether a
network request was performed. -/
structure StatsResult where
  state : Service
  result : Except String Stats
  networkUsed : Bool
deriving Repr

/-- getCollectionStats (part_001 lines 256-312).  The cache key is
derived from the slug; a present, unexpired entry is returned with no
network interaction; otherwise a single POST request is made, a
non-ok response throws without touching the cache, and an ok response
is stored with expiry now plus five minutes and returned.  Date.now
is the explicit now parameter, the network response the explicit
resp parameter. -/
def getCollectionStats (s : Service) (slug : String) (now : Nat)
    (resp : FetchResponse) : StatsResult :=
  let cacheKey := "collectionStats:" ++ slug
  let hitData : Option Stats :=
    if mapHas s.cache cacheKey then
      match mapGet s.cache cacheKey with
      | some cache => if cache.expires > now then some cache.data else none
      | none => none
    else none
  match hitData with
  | some d => { state := s, result := Except.ok d, networkUsed := false }
  | none =>
      if resp.ok then
        let stats := resp.stats
        let entry : CacheEntry := { expires := now + 5 * 60 * 1000, data := stats }
        { state := { s with cache := mapSet s.cache cacheKey entry },
          result := Except.ok stats, networkUsed := true }
      else
        { state := s,
          result := Except.error "Failed to fetch collection stats",
          networkUsed := true }

/-- Whether a getCollectionStats call at the given instant would be
answered from the cache. -/
def cacheHit (c : List (String × CacheEntry)) (k : String) (now : Nat) :
    Bool :=
  match mapGet c k with
  | some e => e.expires > now
  | none => false

/-! ## Trace machinery for the session invariant -/

/-- The stimuli a constructed session can receive once the caller has
invoked connect: transport open and close events for the current
socket, inbound messages, subscribe calls and stats calls.  A
re-entrant caller call of connect is deliberately not in this
alphabet; claim C8 is settled by comparing runs with and without
it. -/
inductive SessionEv where
  | openE : SessionEv
  | closeE : SessionEv
  | subE (slug : String) (force : Bool) : SessionEv
  | msgE (m : InboundMsg) : SessionEv
  | statsE (slug : String) (now : Nat) (resp : FetchResponse) : SessionEv
deriving Repr

/-- An emitter with no registered listeners. -/
def emEmpty : Emitter := { listeners := fun _ => [] }

/-- One step of the session under a stimulus.  The listener
invocations of a dispatch do not change the session state, so the
emitter argument of messageEv is irrelevant here. -/
def sessionStep (s : Service) : SessionEv → Service
  | SessionEv.openE => openEv s
  | SessionEv.closeE => closeEv s
  | SessionEv.subE slug force => subscribeToSlug s slug force
  | SessionEv.msgE m => (messageEv s emEmpty m).1
  | SessionEv.statsE slug now resp => (getCollectionStats s slug now resp).state

/-- Run a list of stimuli from a state. -/
def runSession (s : Service) (es : List SessionEv) : Service :=
  es.foldl sessionStep s

/-- The inductive invariant of the session resource state: the ws
field holds the only live socket, the active timers are empty while
the current socket has not opened and exactly the stored timer handle
once it has, and every issued handle is below the fresh counter. -/
def SessInv (s : Service) : Prop :=
  (∃ h, s.ws = some h ∧ s.wsLive = [h] ∧ h < s.nextHandle ∧
        (s.wsOpened.contains h = false → s.timersLive = [])) ∧
  (s.timersLive = [] ∨ ∃ t, s.timer = some t ∧ s.timersLive = [t]) ∧
  (∀ x ∈ s.wsOpened, x < s.nextHandle)

/-- The log entries the replay loop appends when it starts issuing
identifiers at n for the given slugs, in order. -/
def replayLog : Nat → List String → List LogEntry
  | _, [] => []
  | n, slug :: rest =>
      LogEntry.sent (Frame.subscribe n slug) :: replayLog (n + 1) rest

/-- True when some connection_ack receipt precedes the first send of
the given frame in the log. -/
def ackBefore (l : List LogEntry) (f : Frame) : Bool :=
  (l.takeWhile (fun e => e ≠ LogEntry.sent f)).contains LogEntry.ackReceived

/-! ## Concrete instances used by witnesses and counterexamples -/

/-- A concrete inbound event with the given source and type; the
remaining fields are arbitrary and are never read by the service. -/
def sampleTx (source txType : String) : TensorTransaction :=
  { tx := { source := source, txKey := "k", txId := "i", txType := txType,
            grossAmount := 1, grossAmountUnit := "SOL_LAMPORT",
            sellerId := "s", buyerId := "b", txAt := "t",
            txMetadata := { auctionHouse := "a", urlId := "u",
                            sellerRef := "r", tokenAcc := "ta" },
            poolOnchainId := "p" },
    mint := { onchainId := "m", name := "n", imageUri := "iu",
              metadataUri := "mu", metadataFetchedAt := "mf",
              sellRoyaltyFeeBPS := 0, tokenStandard := "ts",
              tokenEdition := 0, attributes := [],
              lastSale := { price := 0, priceUnit := "pu", txAt := "la" },
              accState := "ac", rarityRankTT := 0, rarityRankTTStat := 0,
              rarityRankHR := 0, rarityRankTeam := 0, rarityRankStat := 0,
              rarityRankTN := 0 } }

/-- A single listener registered on the pattern *:SALE and nothing
else. -/
def emStarSale : Emitter :=
  { listeners := fun e => if e = "*:SALE" then [0] else [] }

/-- The listener population of the fan-out scenario of the spec: a
global listener, an exact listener for marketplaceX:SALE_BUY_NOW, a
bare-type listener for SALE_BUY_NOW, and a listener for the foreign
source wildcard marketplaceY:*. -/
def emFanout : Emitter :=
  { listeners := fun e =>
      if e = "transaction" then [0]
      else if e = "marketplaceX:SALE_BUY_NOW" then [1]
      else if e = "SALE_BUY_NOW" then [2]
      else if e = "marketplaceY:*" then [3]
      else [] }

/-- A single listener registered on the global transaction
pattern. -/
def emGlobal : Emitter :=
  { listeners := fun e => if e = "transaction" then [0] else [] }

/-- A connected session holding one registered slug, used by the
witnesses. -/
def svcOneSub : Service :=
  { initService "https://api.tensor.so/graphql" "key" with
      is_connected := true,
      subscribedSlugs := [("slugA", 5)],
      nextId := 6 }

/-- A connected session with an empty registry, used by the
witnesses. -/
def svcFresh : Service :=
  { initService "https://api.tensor.so/graphql" "key" with
      is_connected := true }

/-- A successful stats response. -/
def respOkA : FetchResponse :=
  { ok := true, stats := { buyNowPriceNetFees := 5, numMints := 100 } }

/-- A second successful stats response with a different payload. -/
def respOkB : FetchResponse :=
  { ok := true, stats := { buyNowPriceNetFees := 7, numMints := 100 } }

/-- A non-2xx stats response. -/
def respBad : FetchResponse :=
  { ok := false, stats := { buyNowPriceNetFees := 0, numMints := 0 } }

/-- A session whose cache holds an entry for slugA expiring at
instant 1000. -/
def svcCached : Service :=
  { svcFresh with
      cache := [("collectionStats:slugA",
        { expires := 1000,
          data := { buyNowPriceNetFees := 3, numMints := 50 } })] }

/-- A not yet opened session holding two registered topics with
identifiers below the fresh counter, as left behind by a close event:
the replacement socket 0 is live and has not fired open. -/
def svcPreOpen : Service :=
  { initService "https://api.tensor.so/graphql" "key" with
      subscribedSlugs := [("slugA", 5), ("slugB", 2)],
      nextId := 6, ws := some 0, wsLive := [0], nextHandle := 1 }

/-- The session after: caller connect, transport open, a subscribe
call for slugA, transport close (which reconnects), transport open of
the replacement socket, then receipt of the connection_ack of the new
connection.  This is the reconnect scenario of claim C5. -/
def reconnectRun : Service :=
  runSession (connectStep (initService "https://api.tensor.so/graphql" "key"))
    [SessionEv.openE,
     SessionEv.subE "slugA" false,
     SessionEv.closeE,
     SessionEv.openE,
     SessionEv.msgE InboundMsg.connection_ack]

/-- The session after the caller invokes connect a second time while
the first connection is open (both connects followed by their
transport open events). -/
def doubleConnectRun : Service :=
  openEv (connectStep (openEv (connectStep
    (initService "https://api.tensor.so/graphql" "key"))))

/-! # Lemmas about the association-list map operations -/

theorem mapGet_mapSet_self {β : Type} (m : List (String × β)) (k : String)
    (v : β) : mapGet (mapSet m k v) k = some v := by
  induction m with
  | nil => simp [mapSet, mapGet]
  | cons p rest ih =>
      obtain ⟨a, b⟩ := p
      by_cases h : a = k
      · simp [mapSet, mapGet, h]
      · simp [mapSet, mapGet, h, ih]

theorem mapGet_mapSet_ne {β : Type} (m : List (String × β)) (k k' : String)
    (v : β) (h : k' ≠ k) : mapGet (mapSet m k v) k' = mapGet m k' := by
  have h2 : ¬(k = k') := fun hh => h hh.symm
  induction m with
  | nil => simp [mapSet, mapGet, h2]
  | cons p rest ih =>
      obtain ⟨a, b⟩ := p
      by_cases ha : a = k
      · subst ha
        simp [mapSet, mapGet, h2]
      · simp [mapSet, mapGet, ha, ih]

theorem mapHas_mapSet_self {β : Type} (m : List (String × β)) (k : String)
    (v : β) : mapHas (mapSet m k v) k = true := by
  induction m with
  | nil => simp [mapSet, mapHas]
  | cons p rest ih =>
      obtain ⟨a, b⟩ := p
      by_cases h : a = k
      · simp [mapSet, mapHas, h]
      · simp [mapSet, mapHas, h, ih]

theorem mapSet_append {β : Type} (m : List (String × β)) (k : String)
    (v : β) (h : mapHas m k = false) : mapSet m k v = m ++ [(k, v)] := by
  induction m with
  | nil => rfl
  | cons p rest ih =>
      obtain ⟨a, b⟩ := p
      by_cases ha : a = k
      · simp [mapHas, ha] at h
      · simp [mapHas, ha] at h
        simp [mapSet, ha, ih h]

theorem mapGet_eq_some_mem {β : Type} (m : List (String × β)) (k : String)
    (v : β) (h : mapGet m k = some v) : (k, v) ∈ m := by
  induction m with
  | nil => simp [mapGet] at h
  | cons p rest ih =>
      obtain ⟨a, b⟩ := p
      by_cases ha : a = k
      · subst ha
        simp [mapGet] at h
        simp [h]
      · simp [mapGet, ha] at h
        simp [ih h]

theorem mapGet_none_of_has_false {β : Type} (m : List (String × β))
    (k : String) (h : mapHas m k = false) : mapGet m k = none := by
  induction m with
  | nil => rfl
  | cons p rest ih =>
      obtain ⟨a, b⟩ := p
      by_cases ha : a = k
      · simp [mapHas, ha] at h
      · simp [mapHas, ha] at h
        simp [mapGet, ha, ih h]

theorem filter_key_nil {β : Type} (m : List (String × β)) (k : String)
    (h : mapHas m k = false) : m.filter (fun p => p.1 = k) = [] := by
  induction m with
  | nil => rfl
  | cons p rest ih =>
      obtain ⟨a, b⟩ := p
      by_cases ha : a = k
      · simp [mapHas, ha] at h
      · simp [mapHas, ha] at h
        simp [List.filter, ha, ih h]

theorem findSlugById_none (m : List (String × Nat)) (id : Nat)
    (h : ∀ p ∈ m, p.2 ≠ id) : findSlugById m id = none := by
  induction m with
  | nil => rfl
  | cons p rest ih =>
      obtain ⟨a, b⟩ := p
      have hb : b ≠ id := h (a, b) (List.mem_cons_self _ _)
      simp [findSlugById, hb]
      exact ih (fun q hq => h q (List.mem_cons_of_mem _ hq))

theorem findSlugById_mapSet_old (m : List (String × Nat)) (T : String)
    (oldId v : Nat) (hkeys : (m.map Prod.fst).Nodup)
    (hvals : (m.map Prod.snd).Nodup) (hmem : (T, oldId) ∈ m)
    (hne : oldId ≠ v) : findSlugById (mapSet m T v) oldId = none := by
  induction m with
  | nil => simp at hmem
  | cons p rest ih =>
      obtain ⟨a, b⟩ := p
      simp only [List.map_cons, List.nodup_cons] at hkeys hvals
      by_cases ha : a = T
      · subst ha
        have hb : oldId = b := by
          rcases List.mem_cons.mp hmem with heq | hrest
          · exact congrArg Prod.snd heq
          · exact absurd (List.mem_map_of_mem Prod.fst hrest) hkeys.1
        have hv : ¬(v = oldId) := fun hh => hne hh.symm
        simp [mapSet, findSlugById, hv]
        refine findSlugById_none rest oldId (fun q hq heq => ?_)
        have hq2 : q.2 ∈ rest.map Prod.snd := List.mem_map_of_mem Prod.snd hq
        rw [heq, hb] at hq2
        exact hvals.1 hq2
      · have hrest : (T, oldId) ∈ rest := by
          rcases List.mem_cons.mp hmem with heq | hr
          · exact absurd (congrArg Prod.fst heq).symm ha
          · exact hr
        have hbne : ¬(b = oldId) := by
          intro hb
          have hq2 : oldId ∈ rest.map Prod.snd :=
            List.mem_map_of_mem Prod.snd hrest
          rw [← hb] at hq2
          exact hvals.1 hq2
        simp only [mapSet, ha, if_false, findSlugById, hbne]
        exact ih hkeys.2 hvals.2 hrest

theorem findSlugById_mapSet_new (m : List (String × Nat)) (T : String)
    (v : Nat) (hv : ∀ p ∈ m, p.2 < v) :
    findSlugById (mapSet m T v) v = some T := by
  induction m with
  | nil => simp [mapSet, findSlugById]
  | cons p rest ih =>
      obtain ⟨a, b⟩ := p
      by_cases ha : a = T
      · simp [mapSet, ha, findSlugById]
      · have hb : ¬(b = v) :=
          Nat.ne_of_lt (hv (a, b) (List.mem_cons_self _ _))
        simp only [mapSet, ha, if_false, findSlugById, hb]
        exact ih (fun q hq => hv q (List.mem_cons_of_mem _ hq))

/-! # Lemmas about send and subscribeToSlug -/

theorem send_eq (s : Service) (f : Frame) :
    send s f = { s with
      log := if s.is_connected then s.log ++ [LogEntry.sent f] else s.log } := by
  obtain ⟨url, key, ws, conn, subs, timer, cache, nid, nh, wl, tl, wo, log⟩ := s
  cases conn <;> simp [send]

theorem subscribeToSlug_eq (s : Service) (slug : String) (force : Bool) :
    subscribeToSlug s slug force =
      if mapHas s.subscribedSlugs slug && !force then s
      else { s with
        subscribedSlugs := mapSet s.subscribedSlugs slug s.nextId,
        nextId := s.nextId + 1,
        log := if s.is_connected then
            s.log ++ [LogEntry.sent (Frame.subscribe s.nextId slug)]
          else s.log } := by
  by_cases hc : (mapHas s.subscribedSlugs slug && !force) = true
  · simp [subscribeToSlug, hc]
  · simp only [Bool.not_eq_true] at hc
    simp only [subscribeToSlug, hc, if_false, Bool.false_eq_true]
    rw [send_eq]

theorem subscribeToSlug_skip (s : Service) (slug : String)
    (h : mapHas s.subscribedSlugs slug = true) :
    subscribeToSlug s slug false = s := by
  simp [subscribeToSlug_eq, h]

theorem subscribeToSlug_go (s : Service) (slug : String) (force : Bool)
    (h : mapHas s.subscribedSlugs slug = false ∨ force = true) :
    subscribeToSlug s slug force = { s with
      subscribedSlugs := mapSet s.subscribedSlugs slug s.nextId,
      nextId := s.nextId + 1,
      log := if s.is_connected then
          s.log ++ [LogEntry.sent (Frame.subscribe s.nextId slug)]
        else s.log } := by
  rcases h with h | h
  · simp [subscribeToSlug_eq, h]
  · simp [subscribeToSlug_eq, h]

theorem subscribeToSlug_ws (s : Service) (slug : String) (force : Bool) :
    (subscribeToSlug s slug force).ws = s.ws := by
  rw [subscribeToSlug_eq]; split <;> rfl

theorem subscribeToSlug_is_connected (s : Service) (slug : String)
    (force : Bool) :
    (subscribeToSlug s slug force).is_connected = s.is_connected := by
  rw [subscribeToSlug_eq]; split <;> rfl

theorem subscribeToSlug_timer (s : Service) (slug : String) (force : Bool) :
    (subscribeToSlug s slug force).timer = s.timer := by
  rw [subscribeToSlug_eq]; split <;> rfl

theorem subscribeToSlug_wsLive (s : Service) (slug : String) (force : Bool) :
    (subscribeToSlug s slug force).wsLive = s.wsLive := by
  rw [subscribeToSlug_eq]; split <;> rfl

theorem subscribeToSlug_timersLive (s : Service) (slug : String)
    (force : Bool) :
    (subscribeToSlug s slug force).timersLive = s.timersLive := by
  rw [subscribeToSlug_eq]; split <;> rfl

theorem subscribeToSlug_wsOpened (s : Service) (slug : String)
    (force : Bool) :
    (subscribeToSlug s slug force).wsOpened = s.wsOpened := by
  rw [subscribeToSlug_eq]; split <;> rfl

theorem subscribeToSlug_nextHandle (s : Service) (slug : String)
    (force : Bool) :
    (subscribeToSlug s slug force).nextHandle = s.nextHandle := by
  rw [subscribeToSlug_eq]; split <;> rfl

theorem subscribeToSlug_cache (s : Service) (slug : String) (force : Bool) :
    (subscribeToSlug s slug force).cache = s.cache := by
  rw [subscribeToSlug_eq]; split <;> rfl

/-! # Claims C2, C3 and C9: the subscription registry -/

/-- Claim C2: subscribe is idempotent without force.  From a
connected session in which the topic is not yet registered, the
second of two subscribe calls changes nothing at all, the two calls
together send exactly one subscribe frame, and afterwards the
registry holds exactly the one freshly issued identifier for the
topic. -/
theorem subscribe_idempotent (s : Service) (T : String)
    (hconn : s.is_connected = true)
    (hfresh : mapHas s.subscribedSlugs T = false) :
    subscribeToSlug (subscribeToSlug s T false) T false
      = subscribeToSlug s T false ∧
    (subscribeToSlug s T false).log
      = s.log ++ [LogEntry.sent (Frame.subscribe s.nextId T)] ∧
    idsFor (subscribeToSlug (subscribeToSlug s T false) T false).subscribedSlugs
        T = [s.nextId] := by
  have hgo := subscribeToSlug_go s T false (Or.inl hfresh)
  have hskip : subscribeToSlug (subscribeToSlug s T false) T false
      = subscribeToSlug s T false := by
    refine subscribeToSlug_skip _ _ ?_
    rw [hgo]
    exact mapHas_mapSet_self _ _ _
  refine ⟨hskip, ?_, ?_⟩
  · rw [hgo]; simp [hconn]
  · rw [hskip, hgo]
    show idsFor (mapSet s.subscribedSlugs T s.nextId) T = [s.nextId]
    rw [mapSet_append _ _ _ hfresh]
    unfold idsFor
    rw [List.filter_append, filter_key_nil _ _ hfresh]
    simp

/-- Witness for claim C2 at a concrete connected session with an
empty registry. -/
theorem subscribe_idempotent_witness :
    (svcFresh.is_connected = true ∧
     mapHas svcFresh.subscribedSlugs "slugA" = false) ∧
    (subscribeToSlug (subscribeToSlug svcFresh "slugA" false) "slugA" false
        = subscribeToSlug svcFresh "slugA" false ∧
      (subscribeToSlug svcFresh "slugA" false).log
        = svcFresh.log ++ [LogEntry.sent (Frame.subscribe svcFresh.nextId "slugA")] ∧
      idsFor (subscribeToSlug (subscribeToSlug svcFresh "slugA" false)
          "slugA" false).subscribedSlugs "slugA" = [svcFresh.nextId]) :=
  ⟨⟨rfl, rfl⟩, subscribe_idempotent svcFresh "slugA" rfl rfl⟩

/-- Claim C3: forced resubscription of an already subscribed topic
issues a fresh identifier distinct from the previous one, sends a new
subscribe frame carrying it, overwrites the registry entry, and
afterwards the old identifier resolves to no topic while the new one
resolves to the topic. -/
theorem subscribe_force_fresh (s : Service) (T : String) (oldId : Nat)
    (hwf : WF s) (hconn : s.is_connected = true)
    (hold : mapGet s.subscribedSlugs T = some oldId) :
    s.nextId ≠ oldId ∧
    (subscribeToSlug s T true).log
      = s.log ++ [LogEntry.sent (Frame.subscribe s.nextId T)] ∧
    mapGet (subscribeToSlug s T true).subscribedSlugs T = some s.nextId ∧
    findSlugById (subscribeToSlug s T true).subscribedSlugs oldId = none ∧
    findSlugById (subscribeToSlug s T true).subscribedSlugs s.nextId
      = some T := by
  obtain ⟨hkeys, hvals, hbound⟩ := hwf
  have hmem : (T, oldId) ∈ s.subscribedSlugs := mapGet_eq_some_mem _ _ _ hold
  have hlt : oldId < s.nextId := hbound _ hmem
  have hne : s.nextId ≠ oldId := fun hh => absurd (hh ▸ hlt) (Nat.lt_irrefl _)
  have hgo := subscribeToSlug_go s T true (Or.inr rfl)
  refine ⟨hne, ?_, ?_, ?_, ?_⟩
  · rw [hgo]; simp [hconn]
  · rw [hgo]
    exact mapGet_mapSet_self _ _ _
  · rw [hgo]
    exact findSlugById_mapSet_old _ _ _ _ hkeys hvals hmem (Nat.ne_of_lt hlt)
  · rw [hgo]
    exact findSlugById_mapSet_new _ _ _ hbound

/-- Witness for claim C3 at a concrete connected session holding one
registered topic. -/
theorem subscribe_force_fresh_witness :
    (WF svcOneSub ∧ svcOneSub.is_connected = true ∧
     mapGet svcOneSub.subscribedSlugs "slugA" = some 5) ∧
    (svcOneSub.nextId ≠ 5 ∧
     (subscribeToSlug svcOneSub "slugA" true).log
       = svcOneSub.log ++ [LogEntry.sent (Frame.subscribe svcOneSub.nextId "slugA")] ∧
     mapGet (subscribeToSlug svcOneSub "slugA" true).subscribedSlugs "slugA"
       = some svcOneSub.nextId ∧
     findSlugById (subscribeToSlug svcOneSub "slugA" true).subscribedSlugs 5
       = none ∧
     findSlugById (subscribeToSlug svcOneSub "slugA" true).subscribedSlugs
         svcOneSub.nextId = some "slugA") :=
  ⟨⟨by decide, rfl, by decide⟩,
   subscribe_force_fresh svcOneSub "slugA" 5 (by decide) rfl (by decide)⟩

/-- Claim C9: subscribing while disconnected still mutates the
registry.  When the session is not connected and the topic is fresh
or force is set, the call records the topic under a freshly generated
identifier, advances the identifier counter, yet transmits nothing:
the log is unchanged. -/
theorem subscribe_offline_mutates (s : Service) (T : String) (force : Bool)
    (hdis : s.is_connected = false)
    (hgo : mapHas s.subscribedSlugs T = false ∨ force = true) :
    mapGet (subscribeToSlug s T force).subscribedSlugs T = some s.nextId ∧
    (subscribeToSlug s T force).nextId = s.nextId + 1 ∧
    (subscribeToSlug s T force).log = s.log := by
  rw [subscribeToSlug_go s T force hgo]
  exact ⟨mapGet_mapSet_self _ _ _, rfl, by simp [hdis]⟩

/-- Witness for claim C9 at the freshly constructed, still
disconnected session. -/
theorem subscribe_offline_mutates_witness :
    ((initService "https://u" "key").is_connected = false ∧
     mapHas (initService "https://u" "key").subscribedSlugs "slugA" = false) ∧
    (mapGet (subscribeToSlug (initService "https://u" "key") "slugA"
        false).subscribedSlugs "slugA"
      = some (initService "https://u" "key").nextId ∧
     (subscribeToSlug (initService "https://u" "key") "slugA" false).nextId
      = (initService "https://u" "key").nextId + 1 ∧
     (subscribeToSlug (initService "https://u" "key") "slugA" false).log
      = (initService "https://u" "key").log) :=
  ⟨⟨rfl, rfl⟩,
   subscribe_offline_mutates (initService "https://u" "key") "slugA" false
     rfl (Or.inl rfl)⟩

/-! # Lemmas about the stats fetch path -/

theorem mapHas_eq_isSome {β : Type} (m : List (String × β)) (k : String) :
    mapHas m k = (mapGet m k).isSome := by
  induction m with
  | nil => rfl
  | cons p rest ih =>
      obtain ⟨a, b⟩ := p
      by_cases h : a = k
      · simp [mapHas, mapGet, h]
      · simp [mapHas, mapGet, h, ih]

theorem getCollectionStats_hit (s : Service) (slug : String) (now : Nat)
    (resp : FetchResponse) (e : CacheEntry)
    (hmg : mapGet s.cache ("collectionStats:" ++ slug) = some e)
    (hx : e.expires > now) :
    getCollectionStats s slug now resp =
      { state := s, result := Except.ok e.data, networkUsed := false } := by
  have hh : mapHas s.cache ("collectionStats:" ++ slug) = true := by
    rw [mapHas_eq_isSome, hmg]; rfl
  simp [getCollectionStats, hh, hmg, hx]

theorem getCollectionStats_miss (s : Service) (slug : String) (now : Nat)
    (resp : FetchResponse)
    (h : cacheHit s.cache ("collectionStats:" ++ slug) now = false) :
    getCollectionStats s slug now resp =
      if resp.ok then
        { state := { s with
            cache := mapSet s.cache ("collectionStats:" ++ slug)
              { expires := now + 5 * 60 * 1000, data := resp.stats } },
          result := Except.ok resp.stats, networkUsed := true }
      else
        { state := s,
          result := Except.error "Failed to fetch collection stats",
          networkUsed := true } := by
  cases hmg : mapGet s.cache ("collectionStats:" ++ slug) with
  | none =>
      have hh : mapHas s.cache ("collectionStats:" ++ slug) = false := by
        rw [mapHas_eq_isSome, hmg]; rfl
      simp [getCollectionStats, hh, hmg]
  | some e =>
      have hh : mapHas s.cache ("collectionStats:" ++ slug) = true := by
        rw [mapHas_eq_isSome, hmg]; rfl
      unfold cacheHit at h
      rw [hmg] at h
      simp only [decide_eq_false_iff_not] at h
      simp [getCollectionStats, hh, hmg, h]

theorem getCollectionStats_miss_ok (s : Service) (slug : String) (now : Nat)
    (resp : FetchResponse)
    (h : cacheHit s.cache ("collectionStats:" ++ slug) now = false)
    (hok : resp.ok = true) :
    getCollectionStats s slug now resp =
      { state := { s with
          cache := mapSet s.cache ("collectionStats:" ++ slug)
            { expires := now + 5 * 60 * 1000, data := resp.stats } },
        result := Except.ok resp.stats, networkUsed := true } := by
  rw [getCollectionStats_miss s slug now resp h, hok]
  simp

theorem getCollectionStats_miss_err (s : Service) (slug : String) (now : Nat)
    (resp : FetchResponse)
    (h : cacheHit s.cache ("collectionStats:" ++ slug) now = false)
    (hbad : resp.ok = false) :
    getCollectionStats s slug now resp =
      { state := s,
        result := Except.error "Failed to fetch collection stats",
        networkUsed := true } := by
  rw [getCollectionStats_miss s slug now resp h, hbad]
  simp

/-! # Claims C6, C7 and C10: the keyed cache -/

/-- Claim C6: fetchStats is cache-idempotent with a fixed 5-minute
TTL.  A first call that misses performs the network request and
stores the payload with expiry now plus 5 minutes; a second call
before that instant is answered from the cache with no network
interaction and no state change; a call after the expiry instant
performs a second network request and overwrites the entry with a
new expiry of its own instant plus 5 minutes. -/
theorem stats_cache_ttl (s : Service) (slug : String) (t0 t1 t2 : Nat)
    (resp1 resp2 resp3 : FetchResponse)
    (hmiss : cacheHit s.cache ("collectionStats:" ++ slug) t0 = false)
    (hok1 : resp1.ok = true)
    (hwithin : t1 < t0 + 5 * 60 * 1000)
    (hafter : t0 + 5 * 60 * 1000 < t2)
    (hok3 : resp3.ok = true) :
    (getCollectionStats s slug t0 resp1).networkUsed = true ∧
    (getCollectionStats s slug t0 resp1).result = Except.ok resp1.stats ∧
    mapGet (getCollectionStats s slug t0 resp1).state.cache
        ("collectionStats:" ++ slug)
      = some { expires := t0 + 5 * 60 * 1000, data := resp1.stats } ∧
    getCollectionStats (getCollectionStats s slug t0 resp1).state slug t1 resp2
      = { state := (getCollectionStats s slug t0 resp1).state,
          result := Except.ok resp1.stats, networkUsed := false } ∧
    (getCollectionStats (getCollectionStats s slug t0 resp1).state slug t2
        resp3).networkUsed = true ∧
    mapGet (getCollectionStats (getCollectionStats s slug t0 resp1).state slug
        t2 resp3).state.cache ("collectionStats:" ++ slug)
      = some { expires := t2 + 5 * 60 * 1000, data := resp3.stats } := by
  have h1 := getCollectionStats_miss_ok s slug t0 resp1 hmiss hok1
  have hc1 : mapGet (getCollectionStats s slug t0 resp1).state.cache
      ("collectionStats:" ++ slug)
      = some { expires := t0 + 5 * 60 * 1000, data := resp1.stats } := by
    rw [h1]
    exact mapGet_mapSet_self _ _ _
  have hhit := getCollectionStats_hit
    (getCollectionStats s slug t0 resp1).state slug t1 resp2 _ hc1 hwithin
  have hch2 : cacheHit (getCollectionStats s slug t0 resp1).state.cache
      ("collectionStats:" ++ slug) t2 = false := by
    unfold cacheHit
    rw [hc1]
    simp only [decide_eq_false_iff_not]
    exact fun hh => absurd hafter (Nat.lt_asymm hh)
  have h3 := getCollectionStats_miss_ok
    (getCollectionStats s slug t0 resp1).state slug t2 resp3 hch2 hok3
  refine ⟨by rw [h1], by rw [h1], hc1, hhit, by rw [h3], ?_⟩
  rw [h3]
  exact mapGet_mapSet_self _ _ _

/-- Witness for claim C6: an empty cache, a first fetch at instant 0,
a hit at instant 1, and a refetch at instant 300001, one past the
expiry instant 300000. -/
theorem stats_cache_ttl_witness :
    (cacheHit svcFresh.cache ("collectionStats:" ++ "slugA") 0 = false ∧
     respOkA.ok = true ∧ (1 : Nat) < 0 + 5 * 60 * 1000 ∧
     0 + 5 * 60 * 1000 < 300001 ∧ respOkB.ok = true) ∧
    ((getCollectionStats svcFresh "slugA" 0 respOkA).networkUsed = true ∧
     (getCollectionStats svcFresh "slugA" 0 respOkA).result
       = Except.ok respOkA.stats ∧
     mapGet (getCollectionStats svcFresh "slugA" 0 respOkA).state.cache
         ("collectionStats:" ++ "slugA")
       = some { expires := 0 + 5 * 60 * 1000, data := respOkA.stats } ∧
     getCollectionStats (getCollectionStats svcFresh "slugA" 0 respOkA).state
         "slugA" 1 respOkA
       = { state := (getCollectionStats svcFresh "slugA" 0 respOkA).state,
           result := Except.ok respOkA.stats, networkUsed := false } ∧
     (getCollectionStats (getCollectionStats svcFresh "slugA" 0 respOkA).state
         "slugA" 300001 respOkB).networkUsed = true ∧
     mapGet (getCollectionStats (getCollectionStats svcFresh "slugA" 0
         respOkA).state "slugA" 300001 respOkB).state.cache
         ("collectionStats:" ++ "slugA")
       = some { expires := 300001 + 5 * 60 * 1000, data := respOkB.stats }) :=
  ⟨⟨by decide, rfl, by decide, by decide, rfl⟩,
   stats_cache_ttl svcFresh "slugA" 0 1 300001 respOkA respOkA respOkB
     (by decide) rfl (by decide) (by decide) rfl⟩

/-- Claim C7: a fetchStats call whose network response is non-success
raises the error to its caller after exactly one network request and
leaves the entire session state, in particular the cache, unchanged. -/
theorem stats_error_no_cache (s : Service) (slug : String) (now : Nat)
    (resp : FetchResponse)
    (hmiss : cacheHit s.cache ("collectionStats:" ++ slug) now = false)
    (hbad : resp.ok = false) :
    getCollectionStats s slug now resp =
      { state := s,
        result := Except.error "Failed to fetch collection stats",
        networkUsed := true } :=
  getCollectionStats_miss_err s slug now resp hmiss hbad

/-- Witness for claim C7 at an empty cache and a failing response. -/
theorem stats_error_no_cache_witness :
    (cacheHit svcFresh.cache ("collectionStats:" ++ "slugA") 3 = false ∧
     respBad.ok = false) ∧
    getCollectionStats svcFresh "slugA" 3 respBad =
      { state := svcFresh,
        result := Except.error "Failed to fetch collection stats",
        networkUsed := true } :=
  ⟨⟨by decide, rfl⟩,
   stats_error_no_cache svcFresh "slugA" 3 respBad (by decide) rfl⟩

/-- Claim C10: the cache-expiry boundary is exclusive.  With an entry
whose expiry instant is e, a call is answered from the cache exactly
when the current instant is strictly below e; in particular a call at
exactly instant e performs a network request and overwrites the entry
with expiry e plus 5 minutes. -/
theorem cache_expiry_exclusive (s : Service) (slug : String) (e : Nat)
    (d : Stats) (resp : FetchResponse)
    (hentry : mapGet s.cache ("collectionStats:" ++ slug)
      = some { expires := e, data := d })
    (hok : resp.ok = true) :
    (∀ now, (getCollectionStats s slug now resp).networkUsed = false ↔
      now < e) ∧
    (getCollectionStats s slug e resp).networkUsed = true ∧
    mapGet (getCollectionStats s slug e resp).state.cache
        ("collectionStats:" ++ slug)
      = some { expires := e + 5 * 60 * 1000, data := resp.stats } := by
  have hmiss : ∀ now, ¬(now < e) →
      cacheHit s.cache ("collectionStats:" ++ slug) now = false := by
    intro now hn
    unfold cacheHit
    rw [hentry]
    simpa using hn
  have hiff : ∀ now, (getCollectionStats s slug now resp).networkUsed = false
      ↔ now < e := by
    intro now
    by_cases hn : now < e
    · rw [getCollectionStats_hit s slug now resp _ hentry hn]
      simp [hn]
    · rw [getCollectionStats_miss_ok s slug now resp (hmiss now hn) hok]
      simp [hn]
  have hb := getCollectionStats_miss_ok s slug e resp
    (hmiss e (Nat.lt_irrefl e)) hok
  refine ⟨hiff, by rw [hb], ?_⟩
  rw [hb]
  exact mapGet_mapSet_self _ _ _

/-- Witness for claim C10 at a concrete cached entry expiring at
instant 1000. -/
theorem cache_expiry_exclusive_witness :
    (mapGet svcCached.cache ("collectionStats:" ++ "slugA")
       = some { expires := 1000,
                data := { buyNowPriceNetFees := 3, numMints := 50 } } ∧
     respOkA.ok = true) ∧
    ((∀ now, (getCollectionStats svcCached "slugA" now respOkA).networkUsed
        = false ↔ now < 1000) ∧
     (getCollectionStats svcCached "slugA" 1000 respOkA).networkUsed = true ∧
     mapGet (getCollectionStats svcCached "slugA" 1000
         respOkA).state.cache ("collectionStats:" ++ "slugA")
       = some { expires := 1000 + 5 * 60 * 1000, data := respOkA.stats }) :=
  ⟨⟨by decide, rfl⟩,
   cache_expiry_exclusive svcCached "slugA" 1000
     { buyNowPriceNetFees := 3, numMints := 50 } respOkA (by decide) rfl⟩

/-! # Lemmas about the event dispatcher -/

theorem emit_eq_nil (em : Emitter) (p : String) (slug : Option String)
    (h : checkForListener em p = false) : emit em p slug = [] := by
  unfold checkForListener listenerCount at h
  simp only [gt_iff_lt, decide_eq_false_iff_not, Nat.not_lt,
    Nat.le_zero] at h
  unfold emit
  rw [List.eq_nil_of_length_eq_zero h]
  rfl

theorem mem_emit (em : Emitter) (p : String) (slug : Option String)
    (i : Invocation) (h : i ∈ emit em p slug) :
    i.pattern = p ∧ i.slug = slug := by
  unfold emit at h
  obtain ⟨l, _, rfl⟩ := List.mem_map.mp h
  exact ⟨rfl, rfl⟩

theorem check_of_mem_emit (em : Emitter) (p : String) (slug : Option String)
    (i : Invocation) (h : i ∈ emit em p slug) :
    checkForListener em p = true := by
  unfold emit at h
  obtain ⟨l, hl, _⟩ := List.mem_map.mp h
  unfold checkForListener listenerCount
  have hpos : 0 < (em.listeners p).length :=
    List.length_pos.mpr (List.ne_nil_of_mem hl)
  simpa using hpos

theorem handleTransaction_eq (em : Emitter) (t : TensorTransaction)
    (slug : Option String) :
    handleTransaction em t slug
      = (firePatterns t.tx.source t.tx.txType).flatMap
          (fun p => emit em p slug) := by
  have hif : ∀ p, (if checkForListener em p then emit em p slug else [])
      = emit em p slug := by
    intro p
    by_cases h : checkForListener em p = true
    · rw [if_pos h]
    · have h' : checkForListener em p = false := by
        cases hc : checkForListener em p
        · rfl
        · exact absurd hc h
      rw [if_neg h, emit_eq_nil em p slug h']
  unfold handleTransaction firePatterns
  simp only [List.flatMap_cons, List.flatMap_nil, List.append_nil, hif,
    List.append_assoc]

theorem handleTransaction_slug (em : Emitter) (t : TensorTransaction)
    (sl : Option String) :
    ∀ i ∈ handleTransaction em t sl, i.slug = sl := by
  intro i hi
  rw [handleTransaction_eq] at hi
  obtain ⟨p, _, hip⟩ := List.mem_flatMap.mp hi
  exact (mem_emit _ _ _ _ hip).2

theorem emit_filter_self (em : Emitter) (q : String) (slug : Option String) :
    (emit em q slug).filter (fun i => i.pattern = q) = emit em q slug := by
  rw [List.filter_eq_self]
  intro i hi
  simp [(mem_emit _ _ _ _ hi).1]

theorem emit_filter_ne (em : Emitter) (q : String) (slug : Option String)
    (p : String) (h : q ≠ p) :
    (emit em q slug).filter (fun i => i.pattern = p) = [] := by
  rw [List.filter_eq_nil_iff]
  intro i hi
  simp [(mem_emit _ _ _ _ hi).1, h]

/-! # Claims C1 and C4: dispatch -/

/-- Claim C1 (amended): provided the five candidate pattern strings
of the event are pairwise distinct, the dispatch performs exactly the
emissions of the five patterns in the fixed order global, exact,
source-wildcard, type-wildcard, bare-type; each registered listener
of a matching pattern fires exactly once (the invocations carrying a
pattern are exactly that pattern's listener list in registration
order); and every invocation belongs to one of the five patterns and
to a pattern with at least one registered listener — so a pattern of
a different source or type, not among the five, never fires. -/
theorem dispatch_fanout (em : Emitter) (t : TensorTransaction)
    (slug : Option String)
    (hnd : (firePatterns t.tx.source t.tx.txType).Nodup) :
    handleTransaction em t slug
      = (firePatterns t.tx.source t.tx.txType).flatMap
          (fun p => emit em p slug) ∧
    (∀ p ∈ firePatterns t.tx.source t.tx.txType,
      (handleTransaction em t slug).filter (fun i => i.pattern = p)
        = emit em p slug) ∧
    (∀ i ∈ handleTransaction em t slug,
      i.pattern ∈ firePatterns t.tx.source t.tx.txType ∧
      checkForListener em i.pattern = true ∧ i.slug = slug) := by
  refine ⟨handleTransaction_eq em t slug, ?_, ?_⟩
  · intro p hp
    rw [handleTransaction_eq]
    simp only [firePatterns, List.nodup_cons, List.mem_cons,
      List.mem_singleton, List.not_mem_nil, or_false, not_or,
      List.nodup_nil, and_true] at hnd
    obtain ⟨⟨h12, h13, h14, h15⟩, ⟨h23, h24, h25⟩, ⟨h34, h35⟩, h45, -⟩ := hnd
    simp only [firePatterns, List.mem_cons, List.mem_singleton,
      List.not_mem_nil, or_false] at hp
    simp only [firePatterns, List.flatMap_cons, List.flatMap_nil,
      List.append_nil, List.filter_append]
    rcases hp with rfl | rfl | rfl | rfl | rfl
    · rw [emit_filter_self, emit_filter_ne _ _ _ _ (Ne.symm h12),
        emit_filter_ne _ _ _ _ (Ne.symm h13),
        emit_filter_ne _ _ _ _ (Ne.symm h14),
        emit_filter_ne _ _ _ _ (Ne.symm h15)]
      simp
    · rw [emit_filter_ne _ _ _ _ h12, emit_filter_self,
        emit_filter_ne _ _ _ _ (Ne.symm h23),
        emit_filter_ne _ _ _ _ (Ne.symm h24),
        emit_filter_ne _ _ _ _ (Ne.symm h25)]
      simp
    · rw [emit_filter_ne _ _ _ _ h13, emit_filter_ne _ _ _ _ h23,
        emit_filter_self, emit_filter_ne _ _ _ _ (Ne.symm h34),
        emit_filter_ne _ _ _ _ (Ne.symm h35)]
      simp
    · rw [emit_filter_ne _ _ _ _ h14, emit_filter_ne _ _ _ _ h24,
        emit_filter_ne _ _ _ _ h34, emit_filter_self,
        emit_filter_ne _ _ _ _ (Ne.symm h45)]
      simp
    · rw [emit_filter_ne _ _ _ _ h15, emit_filter_ne _ _ _ _ h25,
        emit_filter_ne _ _ _ _ h35, emit_filter_ne _ _ _ _ h45,
        emit_filter_self]
      simp
  · intro i hi
    rw [handleTransaction_eq] at hi
    obtain ⟨p, hp, hip⟩ := List.mem_flatMap.mp hi
    obtain ⟨hpat, hslug⟩ := mem_emit _ _ _ _ hip
    refine ⟨?_, ?_, hslug⟩
    · rw [hpat]; exact hp
    · rw [hpat]; exact check_of_mem_emit _ _ _ _ hip

/-- Counterexample to claim C1 as stated: for an event whose source
is the literal star character, the exact pattern and the
type-wildcard pattern are the same string, and the code emits it in
both checks, so the single listener registered on it fires twice. -/
theorem dispatch_double_fire_cex :
    ¬((handleTransaction emStarSale (sampleTx "*" "SALE")
        (some "c")).count
      { pattern := "*:SALE", listener := 0, slug := some "c" } ≤ 1) := by
  decide

/-- Witness for the amended claim C1 at the fan-out scenario of the
spec: global, exact and bare listeners fire exactly once each in the
order global, exact, bare; the foreign-source wildcard listener does
not fire. -/
theorem dispatch_fanout_witness :
    (firePatterns (sampleTx "marketplaceX" "SALE_BUY_NOW").tx.source
        (sampleTx "marketplaceX" "SALE_BUY_NOW").tx.txType).Nodup ∧
    handleTransaction emFanout (sampleTx "marketplaceX" "SALE_BUY_NOW")
        (some "slugA")
      = [{ pattern := "transaction", listener := 0, slug := some "slugA" },
         { pattern := "marketplaceX:SALE_BUY_NOW", listener := 1,
           slug := some "slugA" },
         { pattern := "SALE_BUY_NOW", listener := 2,
           slug := some "slugA" }] ∧
    (handleTransaction emFanout (sampleTx "marketplaceX" "SALE_BUY_NOW")
        (some "slugA")
      = (firePatterns (sampleTx "marketplaceX" "SALE_BUY_NOW").tx.source
          (sampleTx "marketplaceX" "SALE_BUY_NOW").tx.txType).flatMap
            (fun p => emit emFanout p (some "slugA")) ∧
     (∀ p ∈ firePatterns (sampleTx "marketplaceX" "SALE_BUY_NOW").tx.source
          (sampleTx "marketplaceX" "SALE_BUY_NOW").tx.txType,
       (handleTransaction emFanout (sampleTx "marketplaceX" "SALE_BUY_NOW")
           (some "slugA")).filter (fun i => i.pattern = p)
         = emit emFanout p (some "slugA")) ∧
     (∀ i ∈ handleTransaction emFanout (sampleTx "marketplaceX" "SALE_BUY_NOW")
          (some "slugA"),
       i.pattern ∈ firePatterns
           (sampleTx "marketplaceX" "SALE_BUY_NOW").tx.source
           (sampleTx "marketplaceX" "SALE_BUY_NOW").tx.txType ∧
       checkForListener emFanout i.pattern = true ∧
       i.slug = some "slugA")) :=
  ⟨by decide, by decide,
   dispatch_fanout emFanout (sampleTx "marketplaceX" "SALE_BUY_NOW")
     (some "slugA") (by decide)⟩

/-- Claim C4 (amended): an inbound event frame whose identifier
matches no registry entry is not dropped: the session state is
unchanged, but the event is dispatched anyway with an unresolved
topic — every listener invocation the dispatch performs carries no
slug. -/
theorem unresolved_event_dispatched (s : Service) (em : Emitter) (id : Nat)
    (t : TensorTransaction)
    (hnores : findSlugById s.subscribedSlugs id = none) :
    (messageEv s em (InboundMsg.eventFrame id t)).1 = s ∧
    (messageEv s em (InboundMsg.eventFrame id t)).2
      = handleTransaction em t none ∧
    ∀ i ∈ (messageEv s em (InboundMsg.eventFrame id t)).2,
      i.slug = none := by
  have h2 : (messageEv s em (InboundMsg.eventFrame id t)).2
      = handleTransaction em t none := by
    show handleTransaction em t (findSlugById s.subscribedSlugs id)
      = handleTransaction em t none
    rw [hnores]
  refine ⟨rfl, h2, ?_⟩
  rw [h2]
  exact handleTransaction_slug em t none

/-- Counterexample to claim C4 as stated: with one registered topic
under identifier 5 and a global listener, an event frame carrying the
unknown identifier 99 resolves to no topic, yet the global listener
is invoked (with an undefined slug) instead of the event being
dropped. -/
theorem unresolved_event_cex :
    findSlugById svcOneSub.subscribedSlugs 99 = none ∧
    (messageEv svcOneSub emGlobal
        (InboundMsg.eventFrame 99 (sampleTx "mx" "SALE"))).2
      = [{ pattern := "transaction", listener := 0, slug := none }] := by
  decide

/-- Witness for the amended claim C4 at the same concrete session. -/
theorem unresolved_event_dispatched_witness :
    findSlugById svcOneSub.subscribedSlugs 99 = none ∧
    ((messageEv svcOneSub emGlobal
        (InboundMsg.eventFrame 99 (sampleTx "mx" "SALE"))).1 = svcOneSub ∧
     (messageEv svcOneSub emGlobal
        (InboundMsg.eventFrame 99 (sampleTx "mx" "SALE"))).2
       = handleTransaction emGlobal (sampleTx "mx" "SALE") none ∧
     ∀ i ∈ (messageEv svcOneSub emGlobal
        (InboundMsg.eventFrame 99 (sampleTx "mx" "SALE"))).2,
       i.slug = none) :=
  ⟨by decide,
   unresolved_event_dispatched svcOneSub emGlobal 99 (sampleTx "mx" "SALE")
     (by decide)⟩

/-! # Lemmas about the connection lifecycle -/

theorem subscribeToSlug_step (s : Service) (a : String) (L : List String) :
    replayFold s (a :: L) = replayFold (subscribeToSlug s a true) L := rfl

theorem replayFold_fields (L : List String) : ∀ s : Service,
    (replayFold s L).ws = s.ws ∧ (replayFold s L).timer = s.timer ∧
    (replayFold s L).wsLive = s.wsLive ∧
    (replayFold s L).timersLive = s.timersLive ∧
    (replayFold s L).wsOpened = s.wsOpened ∧
    (replayFold s L).nextHandle = s.nextHandle ∧
    (replayFold s L).is_connected = s.is_connected ∧
    (replayFold s L).cache = s.cache := by
  induction L with
  | nil => intro s; exact ⟨rfl, rfl, rfl, rfl, rfl, rfl, rfl, rfl⟩
  | cons a L ih =>
      intro s
      rw [subscribeToSlug_step]
      obtain ⟨h1, h2, h3, h4, h5, h6, h7, h8⟩ := ih (subscribeToSlug s a true)
      exact ⟨h1.trans (subscribeToSlug_ws _ _ _),
        h2.trans (subscribeToSlug_timer _ _ _),
        h3.trans (subscribeToSlug_wsLive _ _ _),
        h4.trans (subscribeToSlug_timersLive _ _ _),
        h5.trans (subscribeToSlug_wsOpened _ _ _),
        h6.trans (subscribeToSlug_nextHandle _ _ _),
        h7.trans (subscribeToSlug_is_connected _ _ _),
        h8.trans (subscribeToSlug_cache _ _ _)⟩

theorem replayFold_log (L : List String) : ∀ s : Service,
    s.is_connected = true →
    (replayFold s L).log = s.log ++ replayLog s.nextId L ∧
    (replayFold s L).nextId = s.nextId + L.length := by
  induction L with
  | nil => intro s _; simp [replayFold, replayLog]
  | cons a L ih =>
      intro s h
      have hgo := subscribeToSlug_go s a true (Or.inr rfl)
      have h1conn : (subscribeToSlug s a true).is_connected = true := by
        rw [subscribeToSlug_is_connected]; exact h
      have hlog1 : (subscribeToSlug s a true).log
          = s.log ++ [LogEntry.sent (Frame.subscribe s.nextId a)] := by
        rw [hgo]; simp [h]
      have hnid1 : (subscribeToSlug s a true).nextId = s.nextId + 1 := by
        rw [hgo]
      obtain ⟨hL, hN⟩ := ih (subscribeToSlug s a true) h1conn
      rw [subscribeToSlug_step]
      constructor
      · rw [hL, hlog1, hnid1, replayLog]
        simp
      · rw [hN, hnid1, List.length_cons]
        omega

theorem replayLog_length (L : List String) : ∀ n,
    (replayLog n L).length = L.length := by
  induction L with
  | nil => intro n; rfl
  | cons a L ih => intro n; simp [replayLog, ih]

theorem replayLog_get? (L : List String) : ∀ n k sl, L.get? k = some sl →
    (replayLog n L).get? k
      = some (LogEntry.sent (Frame.subscribe (n + k) sl)) := by
  induction L with
  | nil => intro n k sl h; simp at h
  | cons a L ih =>
      intro n k sl h
      cases k with
      | zero =>
          simp only [List.get?] at h
          cases h
          rfl
      | succ k =>
          simp only [List.get?] at h
          have h2 := ih (n + 1) k sl h
          have he : n + 1 + k = n + (k + 1) := by omega
          rw [he] at h2
          simpa [replayLog, List.get?] using h2

theorem replayLog_mem_id (L : List String) : ∀ n i sl,
    LogEntry.sent (Frame.subscribe i sl) ∈ replayLog n L → n ≤ i := by
  induction L with
  | nil => intro n i sl h; simp [replayLog] at h
  | cons a L ih =>
      intro n i sl h
      rw [replayLog] at h
      rcases List.mem_cons.mp h with heq | hm
      · simp only [LogEntry.sent.injEq, Frame.subscribe.injEq] at heq
        omega
      · exact Nat.le_of_succ_le (ih (n + 1) i sl hm)

theorem replayFold_mapGet_not_mem (L : List String) :
    ∀ (s : Service) (slug : String), slug ∉ L →
    mapGet (replayFold s L).subscribedSlugs slug
      = mapGet s.subscribedSlugs slug := by
  induction L with
  | nil => intro s slug _; rfl
  | cons a L ih =>
      intro s slug hnot
      have hne : slug ≠ a := fun hh => hnot (hh ▸ List.mem_cons_self _ _)
      have hnL : slug ∉ L := fun hh => hnot (List.mem_cons_of_mem _ hh)
      rw [subscribeToSlug_step, ih (subscribeToSlug s a true) slug hnL,
        subscribeToSlug_go s a true (Or.inr rfl)]
      exact mapGet_mapSet_ne _ _ _ _ hne

theorem replayFold_mapGet_mem (L : List String) :
    ∀ (s : Service) (slug : String), L.Nodup → slug ∈ L →
    ∃ n, mapGet (replayFold s L).subscribedSlugs slug = some n ∧
      s.nextId ≤ n := by
  induction L with
  | nil => intro s slug _ h; simp at h
  | cons a L ih =>
      intro s slug hnd hmem
      obtain ⟨hna, hndL⟩ := List.nodup_cons.mp hnd
      rw [subscribeToSlug_step]
      rcases List.mem_cons.mp hmem with rfl | hm
      · refine ⟨s.nextId, ?_, Nat.le_refl _⟩
        rw [replayFold_mapGet_not_mem L (subscribeToSlug s slug true) slug hna,
          subscribeToSlug_go s slug true (Or.inr rfl)]
        exact mapGet_mapSet_self _ _ _
      · obtain ⟨n, hn, hge⟩ := ih (subscribeToSlug s a true) slug hndL hm
        have hge' : s.nextId ≤ n := by
          rw [subscribeToSlug_go s a true (Or.inr rfl)] at hge
          exact Nat.le_of_succ_le hge
        exact ⟨n, hn, hge'⟩

theorem openEv_eq_canonical (s : Service) (h : Nat) (hws : s.ws = some h)
    (hcond : (s.wsLive.contains h && !(s.wsOpened.contains h)) = true) :
    openEv s = replayFold
      { s with wsOpened := s.wsOpened ++ [h], is_connected := true,
               timer := some s.nextHandle,
               timersLive := s.timersLive ++ [s.nextHandle],
               nextHandle := s.nextHandle + 1,
               log := s.log ++ [LogEntry.sent Frame.connection_init] }
      (s.subscribedSlugs.map Prod.fst) := by
  unfold openEv
  rw [hws]
  dsimp only
  rw [if_pos hcond]
  rfl

theorem openEv_noop_opened (s : Service) (h : Nat) (hws : s.ws = some h)
    (hop : s.wsOpened.contains h = true) : openEv s = s := by
  have hcondf : (s.wsLive.contains h && !(s.wsOpened.contains h)) = false := by
    rw [hop]
    simp
  unfold openEv
  rw [hws]
  dsimp only
  rw [if_neg (fun hc => Bool.false_ne_true (hcondf ▸ hc))]

/-! # Claim C5: reconnect replay -/

/-- Claim C5 (amended): when the transport for the current socket
fires open (in particular on every reconnect), the session sends the
connection_init frame followed immediately, still inside the open
handler and before the handshake acknowledgment can be processed, by
exactly one subscribe frame per registered topic, in registry order;
each replayed frame carries a freshly generated identifier distinct
from every pre-reconnect identifier, and each topic's registry entry
is overwritten with a fresh identifier distinct from its previous
one.  The claim's assertion that the replay happens strictly after
the handshake acknowledgment is refuted by the counterexample. -/
theorem reconnect_replay (s : Service) (h : Nat) (hwf : WF s)
    (hws : s.ws = some h) (hlive : s.wsLive.contains h = true)
    (hnotop : s.wsOpened.contains h = false) :
    (openEv s).log = s.log ++ LogEntry.sent Frame.connection_init ::
        replayLog s.nextId (s.subscribedSlugs.map Prod.fst) ∧
    (replayLog s.nextId (s.subscribedSlugs.map Prod.fst)).length
      = s.subscribedSlugs.length ∧
    (∀ k sl, (s.subscribedSlugs.map Prod.fst).get? k = some sl →
      (replayLog s.nextId (s.subscribedSlugs.map Prod.fst)).get? k
        = some (LogEntry.sent (Frame.subscribe (s.nextId + k) sl))) ∧
    (∀ i sl, LogEntry.sent (Frame.subscribe i sl)
        ∈ replayLog s.nextId (s.subscribedSlugs.map Prod.fst) →
      ∀ p ∈ s.subscribedSlugs, i ≠ p.2) ∧
    (∀ p ∈ s.subscribedSlugs, ∃ n,
      mapGet (openEv s).subscribedSlugs p.1 = some n ∧ n ≠ p.2 ∧
      s.nextId ≤ n) := by
  have hcond : (s.wsLive.contains h && !(s.wsOpened.contains h)) = true := by
    rw [hlive, hnotop]
    rfl
  have hcanon := openEv_eq_canonical s h hws hcond
  refine ⟨?_, ?_, ?_, ?_, ?_⟩
  · rw [hcanon]
    obtain ⟨hL, _⟩ := replayFold_log (s.subscribedSlugs.map Prod.fst)
      { s with wsOpened := s.wsOpened ++ [h], is_connected := true,
               timer := some s.nextHandle,
               timersLive := s.timersLive ++ [s.nextHandle],
               nextHandle := s.nextHandle + 1,
               log := s.log ++ [LogEntry.sent Frame.connection_init] } rfl
    rw [hL]
    simp
  · rw [replayLog_length, List.length_map]
  · intro k sl hk
    exact replayLog_get? _ _ _ _ hk
  · intro i sl hmem p hp
    have hge := replayLog_mem_id _ _ _ _ hmem
    have hlt := hwf.2.2 p hp
    omega
  · intro p hp
    have hkey : p.1 ∈ s.subscribedSlugs.map Prod.fst :=
      List.mem_map_of_mem Prod.fst hp
    obtain ⟨n, hn, hge⟩ := replayFold_mapGet_mem
      (s.subscribedSlugs.map Prod.fst)
      { s with wsOpened := s.wsOpened ++ [h], is_connected := true,
               timer := some s.nextHandle,
               timersLive := s.timersLive ++ [s.nextHandle],
               nextHandle := s.nextHandle + 1,
               log := s.log ++ [LogEntry.sent Frame.connection_init] }
      p.1 hwf.1 hkey
    have hlt := hwf.2.2 p hp
    have hge2 : s.nextId ≤ n := hge
    refine ⟨n, ?_, by omega, hge2⟩
    rw [hcanon]
    exact hn

/-- Counterexample to claim C5 as stated: in the reconnect scenario
the replayed subscribe frame (fresh identifier 1, distinct from the
pre-reconnect identifier 0) appears in the log before the handshake
acknowledgment of the new connection, not strictly after it. -/
theorem replay_before_ack_cex :
    reconnectRun.log =
      [LogEntry.sent Frame.connection_init,
       LogEntry.sent (Frame.subscribe 0 "slugA"),
       LogEntry.sent Frame.connection_init,
       LogEntry.sent (Frame.subscribe 1 "slugA"),
       LogEntry.ackReceived] ∧
    ackBefore reconnectRun.log (Frame.subscribe 1 "slugA") = false := by
  decide

/-- Witness for the amended claim C5 at a concrete two-topic session
about to fire open on its replacement socket. -/
theorem reconnect_replay_witness :
    (WF svcPreOpen ∧ svcPreOpen.ws = some 0 ∧
     svcPreOpen.wsLive.contains 0 = true ∧
     svcPreOpen.wsOpened.contains 0 = false) ∧
    ((openEv svcPreOpen).log = svcPreOpen.log ++
        LogEntry.sent Frame.connection_init ::
        replayLog svcPreOpen.nextId
          (svcPreOpen.subscribedSlugs.map Prod.fst) ∧
     (replayLog svcPreOpen.nextId
        (svcPreOpen.subscribedSlugs.map Prod.fst)).length
       = svcPreOpen.subscribedSlugs.length ∧
     (∀ k sl, (svcPreOpen.subscribedSlugs.map Prod.fst).get? k = some sl →
       (replayLog svcPreOpen.nextId
          (svcPreOpen.subscribedSlugs.map Prod.fst)).get? k
         = some (LogEntry.sent (Frame.subscribe (svcPreOpen.nextId + k) sl))) ∧
     (∀ i sl, LogEntry.sent (Frame.subscribe i sl)
         ∈ replayLog svcPreOpen.nextId
           (svcPreOpen.subscribedSlugs.map Prod.fst) →
       ∀ p ∈ svcPreOpen.subscribedSlugs, i ≠ p.2) ∧
     (∀ p ∈ svcPreOpen.subscribedSlugs, ∃ n,
       mapGet (openEv svcPreOpen).subscribedSlugs p.1 = some n ∧
       n ≠ p.2 ∧ svcPreOpen.nextId ≤ n)) :=
  ⟨⟨by decide, rfl, by decide, by decide⟩,
   reconnect_replay svcPreOpen 0 (by decide) rfl (by decide) (by decide)⟩

/-! # Claim C8: the session resource invariant -/

theorem messageEv_fst_fields (s : Service) (em : Emitter) (m : InboundMsg) :
    (messageEv s em m).1.ws = s.ws ∧ (messageEv s em m).1.timer = s.timer ∧
    (messageEv s em m).1.wsLive = s.wsLive ∧
    (messageEv s em m).1.timersLive = s.timersLive ∧
    (messageEv s em m).1.wsOpened = s.wsOpened ∧
    (messageEv s em m).1.nextHandle = s.nextHandle := by
  cases m <;> exact ⟨rfl, rfl, rfl, rfl, rfl, rfl⟩

theorem getCollectionStats_state_cases (s : Service) (slug : String)
    (now : Nat) (resp : FetchResponse) :
    (getCollectionStats s slug now resp).state = s ∨
    (getCollectionStats s slug now resp).state
      = { s with
          cache := mapSet s.cache ("collectionStats:" ++ slug)
            { expires := now + 5 * 60 * 1000, data := resp.stats } } := by
  by_cases hch : cacheHit s.cache ("collectionStats:" ++ slug) now = true
  · unfold cacheHit at hch
    cases hmg : mapGet s.cache ("collectionStats:" ++ slug) with
    | none => rw [hmg] at hch; simp at hch
    | some e =>
        rw [hmg] at hch
        simp only [decide_eq_true_eq] at hch
        left
        rw [getCollectionStats_hit s slug now resp e hmg hch]
  · simp only [Bool.not_eq_true] at hch
    cases hok : resp.ok with
    | true =>
        right
        rw [getCollectionStats_miss_ok s slug now resp hch hok]
    | false =>
        left
        rw [getCollectionStats_miss_err s slug now resp hch hok]

theorem sessInv_connect_init (u k : String) :
    SessInv (connectStep (initService u k)) := by
  refine ⟨⟨0, rfl, rfl, Nat.zero_lt_one, fun _ => rfl⟩, Or.inl rfl, ?_⟩
  intro x hx
  simp [initService, connectStep] at hx

theorem sessInv_openEv (s : Service) (h : SessInv s) : SessInv (openEv s) := by
  obtain ⟨⟨hv, hws, hlv, hlt, himp⟩, htl, hop⟩ := h
  by_cases hopened : s.wsOpened.contains hv = true
  · rw [openEv_noop_opened s hv hws hopened]
    exact ⟨⟨hv, hws, hlv, hlt, himp⟩, htl, hop⟩
  · simp only [Bool.not_eq_true] at hopened
    have hcont : s.wsLive.contains hv = true := by
      rw [hlv]
      simp
    have hcond : (s.wsLive.contains hv && !(s.wsOpened.contains hv))
        = true := by
      rw [hcont, hopened]
      rfl
    rw [openEv_eq_canonical s hv hws hcond]
    obtain ⟨f1, f2, f3, f4, f5, f6, _, _⟩ := replayFold_fields
      (s.subscribedSlugs.map Prod.fst)
      { s with wsOpened := s.wsOpened ++ [hv], is_connected := true,
               timer := some s.nextHandle,
               timersLive := s.timersLive ++ [s.nextHandle],
               nextHandle := s.nextHandle + 1,
               log := s.log ++ [LogEntry.sent Frame.connection_init] }
    have htl0 : s.timersLive = [] := himp hopened
    refine ⟨⟨hv, ?_, ?_, ?_, ?_⟩, ?_, ?_⟩
    · rw [f1]; exact hws
    · rw [f3]; exact hlv
    · rw [f6]
      show hv < s.nextHandle + 1
      omega
    · intro hcontra
      rw [f5] at hcontra
      simp at hcontra
    · right
      refine ⟨s.nextHandle, ?_, ?_⟩
      · exact f2.trans rfl
      · rw [f4]
        show s.timersLive ++ [s.nextHandle] = [s.nextHandle]
        rw [htl0]
        rfl
    · intro x hx
      rw [f5] at hx
      have hx2 : x ∈ s.wsOpened ++ [hv] := hx
      rw [f6]
      show x < s.nextHandle + 1
      rcases List.mem_append.mp hx2 with hx1 | hx3
      · have := hop x hx1
        omega
      · have : x = hv := by simpa using hx3
        omega

theorem clearTimer_fields (s : Service) :
    (clearTimer s).ws = s.ws ∧ (clearTimer s).wsLive = s.wsLive ∧
    (clearTimer s).wsOpened = s.wsOpened ∧
    (clearTimer s).nextHandle = s.nextHandle ∧
    (clearTimer s).timer = s.timer := by
  unfold clearTimer
  split <;> exact ⟨rfl, rfl, rfl, rfl, rfl⟩

theorem clearTimer_timersLive_some (s : Service) (t : Nat)
    (h : s.timer = some t) :
    (clearTimer s).timersLive = s.timersLive.erase t := by
  unfold clearTimer
  rw [h]

theorem clearTimer_timersLive_none (s : Service) (h : s.timer = none) :
    (clearTimer s).timersLive = s.timersLive := by
  unfold clearTimer
  rw [h]

theorem closeEv_eq (s : Service) (h : Nat) (hws : s.ws = some h)
    (hcont : s.wsLive.contains h = true) :
    closeEv s = connectStep (clearTimer
      { s with is_connected := false, wsLive := s.wsLive.erase h }) := by
  obtain ⟨url, key, ws, conn, subs, timer, cache, nid, nh, wl, tl, wo, log⟩ := s
  dsimp only at hws hcont ⊢
  subst hws
  unfold closeEv
  dsimp only
  rw [if_pos hcont]

theorem sessInv_closeEv (s : Service) (h : SessInv s) :
    SessInv (closeEv s) := by
  obtain ⟨⟨hv, hws, hlv, hlt, _⟩, htl, hop⟩ := h
  have hcont : s.wsLive.contains hv = true := by
    rw [hlv]
    simp
  rw [closeEv_eq s hv hws hcont]
  set s1 : Service := { s with is_connected := false,
                               wsLive := s.wsLive.erase hv } with hs1
  have hclt : (clearTimer s1).timersLive = [] := by
    rcases htl with htl0 | ⟨t, htim, htls⟩
    · cases hti : s.timer with
      | some t =>
          rw [clearTimer_timersLive_some s1 t (by exact hti)]
          show s.timersLive.erase t = []
          rw [htl0]
          rfl
      | none =>
          rw [clearTimer_timersLive_none s1 (by exact hti)]
          show s.timersLive = []
          exact htl0
    · rw [clearTimer_timersLive_some s1 t (by exact htim)]
      show s.timersLive.erase t = []
      rw [htls, List.erase_cons_head]
  obtain ⟨g1, g2, g3, g4, g5⟩ := clearTimer_fields s1
  refine ⟨⟨(clearTimer s1).nextHandle, rfl, ?_, ?_, fun _ => ?_⟩,
    Or.inl ?_, ?_⟩
  · show (clearTimer s1).wsLive ++ [(clearTimer s1).nextHandle]
      = [(clearTimer s1).nextHandle]
    rw [g2]
    show s.wsLive.erase hv ++ [(clearTimer s1).nextHandle]
      = [(clearTimer s1).nextHandle]
    rw [hlv, List.erase_cons_head]
    rfl
  · show (clearTimer s1).nextHandle < (clearTimer s1).nextHandle + 1
    omega
  · show (clearTimer s1).timersLive = []
    exact hclt
  · show (clearTimer s1).timersLive = []
    exact hclt
  · intro x hx
    have hx2 : x ∈ (clearTimer s1).wsOpened := hx
    rw [g3] at hx2
    have hx3 : x ∈ s.wsOpened := hx2
    show x < (clearTimer s1).nextHandle + 1
    rw [g4]
    show x < s.nextHandle + 1
    have := hop x hx3
    omega

theorem sessInv_step (s : Service) (e : SessionEv) (h : SessInv s) :
    SessInv (sessionStep s e) := by
  cases e with
  | openE => exact sessInv_openEv s h
  | closeE => exact sessInv_closeEv s h
  | subE slug force =>
      obtain ⟨⟨hv, hws, hlv, hlt, himp⟩, htl, hop⟩ := h
      show SessInv (subscribeToSlug s slug force)
      refine ⟨⟨hv, ?_, ?_, ?_, ?_⟩, ?_, ?_⟩
      · rw [subscribeToSlug_ws]; exact hws
      · rw [subscribeToSlug_wsLive]; exact hlv
      · rw [subscribeToSlug_nextHandle]; exact hlt
      · rw [subscribeToSlug_wsOpened, subscribeToSlug_timersLive]
        exact himp
      · rw [subscribeToSlug_timer, subscribeToSlug_timersLive]
        exact htl
      · rw [subscribeToSlug_wsOpened, subscribeToSlug_nextHandle]
        exact hop
  | msgE m =>
      obtain ⟨⟨hv, hws, hlv, hlt, himp⟩, htl, hop⟩ := h
      obtain ⟨f1, f2, f3, f4, f5, f6⟩ := messageEv_fst_fields s emEmpty m
      show SessInv (messageEv s emEmpty m).1
      refine ⟨⟨hv, ?_, ?_, ?_, ?_⟩, ?_, ?_⟩
      · rw [f1]; exact hws
      · rw [f3]; exact hlv
      · rw [f6]; exact hlt
      · rw [f5, f4]; exact himp
      · rw [f2, f4]; exact htl
      · rw [f5, f6]; exact hop
  | statsE slug now resp =>
      show SessInv (getCollectionStats s slug now resp).state
      rcases getCollectionStats_state_cases s slug now resp with hc | hc
      · rw [hc]; exact h
      · rw [hc]
        obtain ⟨⟨hv, hws, hlv, hlt, himp⟩, htl, hop⟩ := h
        exact ⟨⟨hv, hws, hlv, hlt, himp⟩, htl, hop⟩

theorem sessInv_run (es : List SessionEv) : ∀ s : Service, SessInv s →
    SessInv (runSession s es) := by
  induction es with
  | nil => intro s h; exact h
  | cons e es ih =>
      intro s h
      exact ih (sessionStep s e) (sessInv_step s e h)

/-- Claim C8 (amended): along every run in which connect is invoked
once by the caller and thereafter only by the close handler (the
stimulus alphabet contains transport open and close events, subscribe
calls, inbound messages and stats calls, but no re-entrant caller
connect), every reachable state has at most one live connection
handle and at most one active keep-alive timer.  The claim's stronger
assertion — that connect itself clears the previous handle and timer,
so that the invariant also survives a re-entrant connect call — is
refuted by the counterexample: clearing happens only in the close
handler. -/
theorem session_single_handle_timer (u k : String) (es : List SessionEv) :
    (runSession (connectStep (initService u k)) es).wsLive.length ≤ 1 ∧
    (runSession (connectStep (initService u k)) es).timersLive.length
      ≤ 1 := by
  have hinv := sessInv_run es (connectStep (initService u k))
    (sessInv_connect_init u k)
  obtain ⟨⟨hv, _, hlv, _, _⟩, htl, _⟩ := hinv
  constructor
  · rw [hlv]
    simp
  · rcases htl with htl0 | ⟨t, _, htls⟩
    · rw [htl0]
      exact Nat.zero_le 1
    · rw [htls]
      simp

/-- Counterexample to claim C8 as stated: a second caller connect
while the first connection is open does not invalidate or clear the
previous handle and timer; after its open event two sockets are live
and two keep-alive timers are active at once. -/
theorem double_connect_cex :
    doubleConnectRun.wsLive.length = 2 ∧
    doubleConnectRun.timersLive.length = 2 ∧
    ¬(doubleConnectRun.wsLive.length ≤ 1 ∧
      doubleConnectRun.timersLive.length ≤ 1) := by
  decide

end TensorSales
